import Mathlib

/-!
Verification of the state-handling core of `bot.py` (a Telegram bot that
keeps moderated-chat flags, per-chat conversation histories and channel
recovery reports in a JSON state file).

The persistent document `STATE = {"moderated_chats": [...], "histories":
{...}, "reports": [...]}` is embedded as the structure `BotState`; each
Python function that reads or mutates it becomes a pure Lean function from
the old state (plus the external inputs the Python code draws from its
environment: the freshly generated uuid, the current time, the clicking
user, the `RECOVERY_ADMIN_IDS` environment string) to the new state and an
observable outcome.
-/

namespace Bot

/-- One entry of a per-chat conversation history:
`{"role": role, "content": content}` as pushed by `push_history`. -/
structure HistEntry where
  role : String
  content : String
  deriving Repr, DecidableEq

/-- One recovery report, as built by `_create_report` in `bot.py`. -/
structure Report where
  id : String
  user_id : Int
  user_name : String
  channel_url : String
  created_at : String
  status : String
  response_by : Option Int
  response_at : Option String
  deriving Repr, DecidableEq

/-- The persisted state document `{"moderated_chats": [], "histories": {},
"reports": []}`.  `histories` is a Python dict keyed by the stringified
chat id; dicts preserve insertion order, so it is embedded as an
association list. -/
structure BotState where
  moderated_chats : List Int
  histories : List (String × List HistEntry)
  reports : List Report
  deriving Repr, DecidableEq

/-- `DEFAULT_STATE = {"moderated_chats": [], "histories": {}, "reports": []}`. -/
def DEFAULT_STATE : BotState := ⟨[], [], []⟩

/-! ### Moderation flags (`is_chat_moderated`, `add_moderated_chat`,
`remove_moderated_chat`) -/

/-- `is_chat_moderated`: `chat_id in STATE.get("moderated_chats", [])`. -/
def is_chat_moderated (s : BotState) (chat_id : Int) : Bool :=
  s.moderated_chats.contains chat_id

/-- `add_moderated_chat`: append `chat_id` unless already present. -/
def add_moderated_chat (s : BotState) (chat_id : Int) : BotState :=
  if s.moderated_chats.contains chat_id then s
  else { s with moderated_chats := s.moderated_chats ++ [chat_id] }

/-- `remove_moderated_chat`: Python `list.remove` deletes the first
occurrence, guarded by a membership test. -/
def remove_moderated_chat (s : BotState) (chat_id : Int) : BotState :=
  if s.moderated_chats.contains chat_id then
    { s with moderated_chats := s.moderated_chats.erase chat_id }
  else s

/-! ### Conversation history ring buffer (`push_history`) -/

/-- Python slice `h[-n:]` (for `n > 0` it keeps the last `n` elements;
`h[-0:]` is the whole list, since `-0 == 0`). -/
def pySliceLast (n : Nat) (l : List HistEntry) : List HistEntry :=
  if n = 0 then l else l.drop (l.length - n)

/-- The history list stored for key `k` (`[]` when the key is absent,
matching `setdefault(str(chat_id), [])`). -/
def histGet (s : BotState) (k : String) : List HistEntry :=
  match s.histories.find? (fun p => p.1 == k) with
  | some p => p.2
  | none => []

/-- Replace the value at the first occurrence of key `k`, or append the
binding at the end when `k` is absent — the net effect of
`setdefault(k, [])` followed by an in-place update on a Python dict. -/
def histSet (hs : List (String × List HistEntry)) (k : String)
    (v : List HistEntry) : List (String × List HistEntry) :=
  match hs with
  | [] => [(k, v)]
  | p :: rest =>
    if p.1 == k then (k, v) :: rest else p :: histSet rest k v

/-- `push_history(chat_id, role, content, max_len=10)`: append the entry,
then truncate to the last `max_len` entries when the list got longer. -/
def push_history (s : BotState) (chat_id role content : String)
    (max_len : Nat := 10) : BotState :=
  let h := histGet s chat_id ++ [⟨role, content⟩]
  let h := if h.length > max_len then pySliceLast max_len h else h
  { s with histories := histSet s.histories chat_id h }

/-! ### Python string/int helpers used by `_admin_ids_set` -/

/-- The characters Python `str.strip()` removes. -/
def isPyWhitespace (c : Char) : Bool :=
  c = ' ' || c = '\t' || c = '\n' || c = '\r' || c = '\x0b' || c = '\x0c'

/-- Python `str.strip()`. -/
def pyStrip (s : String) : String :=
  ⟨((s.toList.dropWhile isPyWhitespace).reverse.dropWhile isPyWhitespace).reverse⟩

/-- Digits of a base-10 Python int literal after the first digit: plain
digits with single underscores allowed between digits (Python 3 accepts
`1_000` but rejects `1_`, `_1` and `1__0`). -/
def pyDigitsTail (acc : Nat) : List Char → Option Nat
  | [] => some acc
  | '_' :: c :: rest =>
    if c.isDigit then pyDigitsTail (acc * 10 + (c.toNat - 48)) rest else none
  | c :: rest =>
    if c.isDigit then pyDigitsTail (acc * 10 + (c.toNat - 48)) rest else none

/-- Python `int(p)` on an already-stripped token: optional sign, then a
digit, then digits possibly separated by single underscores; `none` models
the `ValueError` that `_admin_ids_set` swallows. -/
def pyIntOfString (s : String) : Option Int :=
  match s.toList with
  | '+' :: c :: cs =>
    if c.isDigit then (pyDigitsTail (c.toNat - 48) cs).map Int.ofNat else none
  | '-' :: c :: cs =>
    if c.isDigit then (pyDigitsTail (c.toNat - 48) cs).map (fun n => -(Int.ofNat n))
    else none
  | c :: cs =>
    if c.isDigit then (pyDigitsTail (c.toNat - 48) cs).map Int.ofNat else none
  | [] => none

/-- Splitting on a one-character separator, accumulator version. -/
def pySplitAux (sep : Char) : List Char → List Char → List (List Char)
  | [], acc => [acc.reverse]
  | c :: rest, acc =>
    if c = sep then acc.reverse :: pySplitAux sep rest []
    else pySplitAux sep rest (c :: acc)

/-- Python `s.split(sep)` for a one-character separator (the two call
sites split on `","` and `":"`): empty pieces are kept and `"".split(sep)`
is `[""]`. -/
def pySplit (s : String) (sep : Char) : List String :=
  (pySplitAux sep s.toList []).map fun cs => ⟨cs⟩

/-- `_admin_ids_set`: split `RECOVERY_ADMIN_IDS` on commas, strip each
token, skip blanks, parse ints and swallow `ValueError`.  The Python `set`
is embedded as a duplicate-free list built in insertion order (only
emptiness and membership are ever consulted). -/
def _admin_ids_set (env : String) : List Int :=
  (pySplit env ',').foldl
    (fun acc p =>
      let p := pyStrip p
      if p = "" then acc
      else
        match pyIntOfString p with
        | none => acc
        | some n => if acc.contains n then acc else acc ++ [n])
    []

/-! ### Report lifecycle -/

/-- The Telegram user fields `_create_report` reads. -/
structure TgUser where
  id : Int
  username : Option String
  first_name : String
  last_name : String
  deriving Repr, DecidableEq

/-- `user.username or f"{user.first_name} {getattr(user, 'last_name', '')}".strip()`:
a `None` or empty username is falsy, so the stripped full name is used. -/
def userDisplayName (u : TgUser) : String :=
  match u.username with
  | some un => if un = "" then pyStrip (u.first_name ++ " " ++ u.last_name) else un
  | none => pyStrip (u.first_name ++ " " ++ u.last_name)

/-- `_create_report(user, channel_url)`.  The fresh id
(`uuid.uuid4().hex[:8]`) and the current time
(`datetime.utcnow().isoformat()`) are nondeterministic external inputs and
are therefore parameters; the code appends the new report without
comparing `report_id` against existing ids. -/
def _create_report (s : BotState) (user : TgUser) (channel_url : String)
    (report_id : String) (now : String) : Report × BotState :=
  let report : Report :=
    { id := report_id
      user_id := user.id
      user_name := userDisplayName user
      channel_url := channel_url
      created_at := now ++ "Z"
      status := "pending"
      response_by := none
      response_at := none }
  (report, { s with reports := s.reports ++ [report] })

/-- `next((r for r in reports if r["id"] == report_id), None)`: the first
report in list order with the given id. -/
def findReport (reports : List Report) (report_id : String) : Option Report :=
  reports.find? (fun r => r.id == report_id)

/-- In-place mutation of the first report carrying `report_id` (the object
returned by `next(...)` is mutated through its reference). -/
def updateFirstReport (l : List Report) (report_id : String)
    (f : Report → Report) : List Report :=
  match l with
  | [] => []
  | r :: rs =>
    if r.id == report_id then f r :: rs
    else r :: updateFirstReport rs report_id f

/-- The mutation performed on a pending report by
`recovery_callback_handler`: status becomes `"provided"` on `"approve"`
and `"denied"` otherwise, `response_by` becomes the clicker and
`response_at` the current time. -/
def resolveReport (action : String) (clicker : Int) (now : String)
    (r : Report) : Report :=
  { r with
    status := if action == "approve" then "provided" else "denied"
    response_by := some clicker
    response_at := some (now ++ "Z") }

/-- `query.data.split(":")` must yield exactly
`["recovery", report_id, action]`; anything else makes the handler return
without touching the state. -/
def parseCallbackData (data : String) : Option (String × String) :=
  match pySplit data ':' with
  | [p0, report_id, action] =>
    if p0 == "recovery" then some (report_id, action) else none
  | _ => none

/-- The authorization guard of `recovery_callback_handler`:
`if admins and clicker_id not in admins`. -/
def cbGuardRejects (env : String) (clicker : Int) : Bool :=
  let admins := _admin_ids_set env
  !admins.isEmpty && !admins.contains clicker

/-- Observable outcome of a recovery callback (which alert/edit the
handler produced), alongside the state it leaves behind. -/
inductive CbOutcome where
  | badData
  | unauthorized
  | notFound
  | alreadyResolved
  | resolved (report_id action : String)
  deriving Repr, DecidableEq

/-- `recovery_callback_handler`: parse the callback data, run the admin
guard, look up the report, refuse non-pending reports, otherwise resolve
the report in place and persist. -/
def recovery_callback_handler (s : BotState) (data : String) (clicker : Int)
    (adminEnv : String) (now : String) : BotState × CbOutcome :=
  match parseCallbackData data with
  | none => (s, .badData)
  | some (report_id, action) =>
    if cbGuardRejects adminEnv clicker then (s, .unauthorized)
    else
      match findReport s.reports report_id with
      | none => (s, .notFound)
      | some r =>
        if r.status != "pending" then (s, .alreadyResolved)
        else
          ({ s with
              reports := updateFirstReport s.reports report_id
                (resolveReport action clicker now) },
            .resolved report_id action)

/-- `f"{report['response_by']}"`-style rendering of a possibly-`None` int. -/
def pyOptIntStr : Option Int → String
  | none => "None"
  | some n => toString n

/-- `f"{report.get('response_at')}"`-style rendering of a possibly-`None`
string. -/
def pyOptStrStr : Option String → String
  | none => "None"
  | some t => t

/-- Truthiness of `report.get("response_by")`: `None` and `0` are falsy. -/
def pyTruthyOptInt : Option Int → Bool
  | none => false
  | some n => n != 0

/-- The reply text `/recovery_status` builds for a found report. -/
def recoveryStatusReply (r : Report) : String :=
  "Report ID: " ++ r.id ++ "\n" ++
  "Usuario: @" ++ r.user_name ++ " (id: " ++ toString r.user_id ++ ")\n" ++
  "Canal: " ++ r.channel_url ++ "\n" ++
  "Creado: " ++ r.created_at ++ "\n" ++
  "Estado: " ++ r.status ++ "\n" ++
  (if pyTruthyOptInt r.response_by then
    "Respondido por: " ++ pyOptIntStr r.response_by ++ " a las " ++
      pyOptStrStr r.response_at ++ "\n"
  else "")

/-- `/recovery_status <report_id>`: look the report up and reply; the
state is never modified. -/
def recovery_status (s : BotState) (report_id : String) : String × BotState :=
  match findReport s.reports report_id with
  | none => ("Reporte no encontrado.", s)
  | some r => (recoveryStatusReply r, s)

/-! ### JSON documents and the Hugging Face client -/

/-- JSON values as decoded by `json.loads`, restricted to the shapes this
bot ever stores or receives: null, booleans, integers, strings, arrays
and objects (objects keep key order like Python dicts; floating-point
numbers never occur in the state document or in the claims checked
here and are left out). -/
inductive Json where
  | null : Json
  | bool : Bool → Json
  | int : Int → Json
  | str : String → Json
  | arr : List Json → Json
  | obj : List (String × Json) → Json

/-- Python truthiness of a decoded JSON value: `None`, `False`, `0`, `""`,
`[]` and `{}` are falsy. -/
def jsonTruthy : Json → Bool
  | .null => false
  | .bool b => b
  | .int n => n != 0
  | .str s => s != ""
  | .arr l => !l.isEmpty
  | .obj m => !m.isEmpty

/-- `dict.get(k)`: the value bound to `k`, `None` (here `none`) when the
key is absent. -/
def jsonGet (m : List (String × Json)) (k : String) : Option Json :=
  match m.find? (fun p => p.1 == k) with
  | some p => some p.2
  | none => none

/-- Truthiness of a `dict.get` result: a missing key is falsy. -/
def pyTruthyOptJson : Option Json → Bool
  | none => false
  | some v => jsonTruthy v

/-- CPython `repr` escaping of one character inside a single-quoted
string: backslash, quote and the common control characters. -/
def pyReprEscChar (c : Char) : List Char :=
  if c = '\\' then ['\\', '\\']
  else if c = '\x27' then ['\\', '\x27']
  else if c = '\n' then ['\\', 'n']
  else if c = '\r' then ['\\', 'r']
  else if c = '\t' then ['\\', 't']
  else [c]

/-- CPython `repr` of a string body (the part between the quotes). -/
def pyReprStrBody (s : String) : String :=
  ⟨(s.toList.map pyReprEscChar).flatten⟩

mutual

/-- CPython `repr` of a decoded JSON value (`None`/`True`/`False`,
single-quoted strings, `[...]` lists, `\x7b...\x7d` dicts), as used for
values nested inside a stringified container. -/
def pyRepr : Json → String
  | .null => "None"
  | .bool b => if b then "True" else "False"
  | .int n => toString n
  | .str s => "\x27" ++ pyReprStrBody s ++ "\x27"
  | .arr l => "[" ++ String.intercalate ", " (pyReprList l) ++ "]"
  | .obj m => "\x7b" ++ String.intercalate ", " (pyReprObj m) ++ "\x7d"

/-- `repr` of each element of a list. -/
def pyReprList : List Json → List String
  | [] => []
  | j :: js => pyRepr j :: pyReprList js

/-- `repr` of each `key: value` pair of a dict. -/
def pyReprObj : List (String × Json) → List String
  | [] => []
  | (k, v) :: rest =>
    ("\x27" ++ pyReprStrBody k ++ "\x27: " ++ pyRepr v) :: pyReprObj rest

end

/-- CPython `str()` of a decoded JSON value: a top-level string is
returned verbatim, everything else falls back to `repr`. -/
def pyStr : Json → String
  | .str s => s
  | j => pyRepr j

/-- `str()` applied to a `dict.get` result (`str(None) = "None"`). -/
def pyStrOptJson : Option Json → String
  | none => "None"
  | some v => pyStr v

/-- `x or y` on a `dict.get` result: keep `x` when truthy, else `y`. -/
def pyOr (x : Option Json) (y : Json) : Json :=
  match x with
  | some v => if jsonTruthy v then v else y
  | none => y

/-- `hf_generate_text(prompt)` after the HTTP round trip, as a function of
its environment and of the response: `apiKey` is `HUGGINGFACE_API_KEY`
(`none` when unset), `respText` the raw response body and `decoded` the
result of `json.loads(respText)` (`none` when the body is not JSON).
`Except.error` is the `RuntimeError` the Python code raises; the success
value is the Python object returned (a `Json.str` whenever it is a
string). -/
def hf_generate_text (apiKey : Option String) (respText : String)
    (decoded : Option Json) : Except String Json :=
  if (match apiKey with | none => true | some k => k == "") then
    .error "HUGGINGFACE_API_KEY no está configurado en .env"
  else
    match decoded with
    | none =>
      .error ("Hugging Face returned non-JSON response: " ++ respText.take 400)
    | some data =>
      match data with
      | .obj m =>
        if pyTruthyOptJson (jsonGet m "error") then
          .error ("Hugging Face error: " ++ pyStrOptJson (jsonGet m "error"))
        else
          .ok (pyOr (jsonGet m "generated_text")
            (pyOr (jsonGet m "text") (.str (pyStr data))))
      | .arr (first :: _) =>
        match first with
        | .obj fm => .ok (pyOr (jsonGet fm "generated_text") (.str ""))
        | _ => .ok (.str (pyStr data))
      | _ => .ok (.str (pyStr data))

/-! ### State store (`load_state` / `save_state`)

The file holds the JSON serialization of the state document; the `json`
module's (de)serialization is the external collaborator here, so the file
is embedded at the document level: `Option Json` is the content of
`STATE_FILE`, `none` meaning the file does not exist. -/

/-- The default document `DEFAULT_STATE` as JSON. -/
def DEFAULT_STATE_JSON : Json :=
  .obj [("moderated_chats", .arr []), ("histories", .obj []),
    ("reports", .arr [])]

/-- `save_state(state)`: write the document to `STATE_FILE`. -/
def save_state (state : Json) (_file : Option Json) : Option Json :=
  some state

/-- `load_state()`: when `STATE_FILE` does not exist, first persist
`DEFAULT_STATE`, then read and return the file content.  Returns the new
file content together with the document read. -/
def load_state : Option Json → Option Json × Json
  | none => (save_state DEFAULT_STATE_JSON none, DEFAULT_STATE_JSON)
  | some doc => (some doc, doc)

/-! ## Demonstration data reused by the concrete checks below -/

/-- A concrete pending report. -/
def demoReport : Report :=
  { id := "aaaa", user_id := 7, user_name := "u",
    channel_url := "https://t.me/x", created_at := "T0Z",
    status := "pending", response_by := none, response_at := none }

/-- A concrete state with one moderated chat, one history and one pending
report. -/
def demoState : BotState :=
  { moderated_chats := [3], histories := [("5", [⟨"user", "hi"⟩])],
    reports := [demoReport] }

/-- A concrete Telegram user. -/
def demoUser : TgUser :=
  { id := 7, username := some "u", first_name := "F", last_name := "L" }

/-! ## Helper lemmas -/

/-- Looking up a key right after `histSet` yields the stored value. -/
theorem histSet_find (hs : List (String × List HistEntry)) (k : String)
    (v : List HistEntry) :
    (histSet hs k v).find? (fun p => p.1 == k) = some (k, v) := by
  induction hs with
  | nil => simp [histSet]
  | cons p rest ih =>
    by_cases h : p.1 = k
    · simp [histSet, h]
    · simp [histSet, h, List.find?, ih]

/-- `histGet` after `histSet` on the same key. -/
theorem histGet_histSet (s : BotState) (k : String) (v : List HistEntry) :
    histGet { s with histories := histSet s.histories k v } k = v := by
  simp [histGet, histSet_find]

/-! ## Claims -/

/-- The trimming step of `push_history` keeps exactly the last `10`
entries. -/
theorem trim_eq_drop (h : List HistEntry) :
    (if h.length > 10 then pySliceLast 10 h else h) =
      h.drop (h.length - 10) := by
  by_cases hl : h.length > 10
  · rw [if_pos hl]
    simp [pySliceLast]
  · rw [if_neg hl]
    have h0 : h.length - 10 = 0 := by omega
    rw [h0, List.drop_zero]

/-- C3: per-chat conversation history is a bounded ring buffer.  With the
default `max_len` of 10, the history stored for the chat after
`push_history` is exactly the last 10 elements of the old history with the
new `{role, content}` entry appended, hence never longer than 10, and it
is a suffix of the appended list: the oldest entries are dropped first and
the relative order of the kept entries is preserved. -/
theorem push_history_ring_buffer (s : BotState) (chat role content : String) :
    histGet (push_history s chat role content) chat =
      (histGet s chat ++ [HistEntry.mk role content]).drop
        ((histGet s chat ++ [HistEntry.mk role content]).length - 10) ∧
    (histGet (push_history s chat role content) chat).length ≤ 10 ∧
    histGet (push_history s chat role content) chat
      <:+ histGet s chat ++ [HistEntry.mk role content] := by
  have key : histGet (push_history s chat role content) chat =
      (histGet s chat ++ [HistEntry.mk role content]).drop
        ((histGet s chat ++ [HistEntry.mk role content]).length - 10) := by
    show histGet { s with histories := (histSet s.histories chat
        (if (histGet s chat ++ [HistEntry.mk role content]).length > 10 then
          pySliceLast 10 (histGet s chat ++ [HistEntry.mk role content])
        else histGet s chat ++ [HistEntry.mk role content])) } chat = _
    rw [histGet_histSet]
    exact trim_eq_drop _
  refine ⟨key, ?_, ?_⟩
  · rw [key, List.length_drop]
    omega
  · rw [key]
    exact List.drop_suffix _ _

/-- C4: `_create_report` appends exactly one new report whose `user_id`
and `channel_url` are the given ones, whose status is `"pending"` and
whose `response_by`/`response_at` are `None`; it returns that report and
leaves all previously existing reports, the moderated chats and the
histories unchanged. -/
theorem create_report_postcondition (s : BotState) (user : TgUser)
    (url rid now : String) :
    ((_create_report s user url rid now).2).reports =
      s.reports ++ [(_create_report s user url rid now).1] ∧
    ((_create_report s user url rid now).1).user_id = user.id ∧
    ((_create_report s user url rid now).1).channel_url = url ∧
    ((_create_report s user url rid now).1).status = "pending" ∧
    ((_create_report s user url rid now).1).response_by = none ∧
    ((_create_report s user url rid now).1).response_at = none ∧
    ((_create_report s user url rid now).2).moderated_chats =
      s.moderated_chats ∧
    ((_create_report s user url rid now).2).histories = s.histories :=
  ⟨rfl, rfl, rfl, rfl, rfl, rfl, rfl, rfl⟩

/-- C7: state-store round trip.  Reading the state file back after saving
any JSON document returns that document, and when the file does not exist
`load_state` first persists the default document
`{"moderated_chats": [], "histories": {}, "reports": []}` and then
returns it. -/
theorem state_store_round_trip (d : Json) (fs : Option Json) :
    (load_state (save_state d fs)).2 = d ∧
    load_state none = (some DEFAULT_STATE_JSON, DEFAULT_STATE_JSON) :=
  ⟨rfl, rfl⟩

/-- C8: moderation-flag algebra.  After `add_moderated_chat c` the chat is
moderated; after `remove_moderated_chat c` (on a duplicate-free list, the
invariant the operations preserve) it is not; `add_moderated_chat` is
idempotent; both operations preserve duplicate-freeness of
`moderated_chats`; and the flag of every other chat id is unaffected by
either operation. -/
theorem moderated_chat_algebra (s : BotState) (c d : Int) :
    is_chat_moderated (add_moderated_chat s c) c = true ∧
    (s.moderated_chats.Nodup →
      is_chat_moderated (remove_moderated_chat s c) c = false) ∧
    add_moderated_chat (add_moderated_chat s c) c = add_moderated_chat s c ∧
    (s.moderated_chats.Nodup →
      (add_moderated_chat s c).moderated_chats.Nodup ∧
      (remove_moderated_chat s c).moderated_chats.Nodup) ∧
    (d ≠ c →
      is_chat_moderated (add_moderated_chat s c) d = is_chat_moderated s d ∧
      is_chat_moderated (remove_moderated_chat s c) d =
        is_chat_moderated s d) := by
  have hadd : is_chat_moderated (add_moderated_chat s c) c = true := by
    by_cases hc : s.moderated_chats.contains c
    · rw [add_moderated_chat, if_pos hc]
      exact hc
    · rw [add_moderated_chat, if_neg hc]
      simp [is_chat_moderated]
  refine ⟨hadd, ?_, ?_, ?_, ?_⟩
  · intro hnd
    by_cases hc : s.moderated_chats.contains c
    · rw [remove_moderated_chat, if_pos hc]
      simp [is_chat_moderated, hnd.not_mem_erase]
    · rw [remove_moderated_chat, if_neg hc]
      simpa [is_chat_moderated] using hc
  · have h2 : (add_moderated_chat s c).moderated_chats.contains c = true := hadd
    show (if (add_moderated_chat s c).moderated_chats.contains c then
        add_moderated_chat s c
      else { add_moderated_chat s c with
        moderated_chats := (add_moderated_chat s c).moderated_chats ++ [c] }) =
      add_moderated_chat s c
    rw [if_pos h2]
  · intro hnd
    constructor
    · by_cases hc : s.moderated_chats.contains c
      · rw [add_moderated_chat, if_pos hc]
        exact hnd
      · rw [add_moderated_chat, if_neg hc]
        simp only [List.nodup_append]
        simp at hc
        simp [hnd, hc]
    · by_cases hc : s.moderated_chats.contains c
      · rw [remove_moderated_chat, if_pos hc]
        exact hnd.erase c
      · rw [remove_moderated_chat, if_neg hc]
        exact hnd
  · intro hdc
    constructor
    · by_cases hc : s.moderated_chats.contains c
      · rw [add_moderated_chat, if_pos hc]
      · rw [add_moderated_chat, if_neg hc]
        simp [is_chat_moderated, hdc]
    · by_cases hc : s.moderated_chats.contains c
      · rw [remove_moderated_chat, if_pos hc]
        simp [is_chat_moderated]
        rw [List.mem_erase_of_ne hdc]
      · rw [remove_moderated_chat, if_neg hc]

/-- Concrete instance of `moderated_chat_algebra` on `demoState` (whose
`moderated_chats` is the duplicate-free `[3]`), chat ids 3 and 4. -/
theorem moderated_chat_algebra_witness :
    is_chat_moderated (remove_moderated_chat demoState 3) 3 = false ∧
    (add_moderated_chat demoState 3).moderated_chats.Nodup ∧
    is_chat_moderated (add_moderated_chat demoState 3) 4 =
      is_chat_moderated demoState 4 :=
  ⟨(moderated_chat_algebra demoState 3 4).2.1 (by decide),
   ((moderated_chat_algebra demoState 3 4).2.2.2.1 (by decide)).1,
   ((moderated_chat_algebra demoState 3 4).2.2.2.2 (by decide)).1⟩


/-- A successful `findReport` splits the list at the first report with
the wanted id. -/
theorem findReport_decomp (l : List Report) (rid : String) (r : Report)
    (h : findReport l rid = some r) :
    ∃ pre post, l = pre ++ r :: post ∧ (∀ x ∈ pre, x.id ≠ rid) ∧ r.id = rid := by
  induction l with
  | nil => simp [findReport] at h
  | cons a tl ih =>
    by_cases ha : a.id = rid
    · rw [findReport, List.find?_cons_of_pos _ (by simpa using ha)] at h
      obtain rfl : a = r := by simpa using h
      exact ⟨[], tl, rfl, by simp, ha⟩
    · rw [findReport, List.find?_cons_of_neg _ (by simpa using ha)] at h
      obtain ⟨pre, post, hl, hpre, hr⟩ := ih h
      exact ⟨a :: pre, post, by simp [hl], by simpa [ha] using hpre, hr⟩

/-- Conversely, the first report with the wanted id is the one
`findReport` returns. -/
theorem findReport_first (pre post : List Report) (r : Report) (rid : String)
    (hr : r.id = rid) (hpre : ∀ x ∈ pre, x.id ≠ rid) :
    findReport (pre ++ r :: post) rid = some r := by
  induction pre with
  | nil =>
    rw [List.nil_append, findReport, List.find?_cons_of_pos _ (by simpa using hr)]
  | cons a tl ih =>
    have ha : a.id ≠ rid := hpre a (by simp)
    rw [List.cons_append, findReport, List.find?_cons_of_neg _ (by simpa using ha)]
    exact ih (fun x hx => hpre x (by simp [hx]))

/-- `updateFirstReport` rewrites exactly the first report with the wanted
id and keeps everything else. -/
theorem updateFirstReport_decomp (pre post : List Report) (r : Report)
    (rid : String) (f : Report → Report) (hr : r.id = rid)
    (hpre : ∀ x ∈ pre, x.id ≠ rid) :
    updateFirstReport (pre ++ r :: post) rid f = pre ++ f r :: post := by
  induction pre with
  | nil => simp [updateFirstReport, hr]
  | cons a tl ih =>
    have ha : a.id ≠ rid := hpre a (by simp)
    simp only [List.cons_append, updateFirstReport]
    rw [if_neg (by simpa using ha)]
    exact congrArg (a :: ·) (ih (fun x hx => hpre x (by simp [hx])))

/-- Updating the first report of a different id (with an id-preserving
update) does not change what `findReport` sees for this id. -/
theorem findReport_updateFirst_ne (l : List Report) (rid rid2 : String)
    (f : Report → Report) (hne : rid ≠ rid2) (hf : ∀ x, (f x).id = x.id) :
    findReport (updateFirstReport l rid2 f) rid = findReport l rid := by
  induction l with
  | nil => rfl
  | cons a tl ih =>
    by_cases ha2 : a.id = rid2
    · rw [updateFirstReport, if_pos (by simpa using ha2)]
      have hfa : (f a).id ≠ rid := by rw [hf a, ha2]; exact fun e => hne e.symm
      have har : a.id ≠ rid := by rw [ha2]; exact fun e => hne e.symm
      rw [findReport, List.find?_cons_of_neg _ (by simpa using hfa)]
      rw [findReport, List.find?_cons_of_neg _ (by simpa using har)]
    · rw [updateFirstReport, if_neg (by simpa using ha2)]
      by_cases har : a.id = rid
      · rw [findReport, List.find?_cons_of_pos _ (by simpa using har)]
        rw [findReport, List.find?_cons_of_pos _ (by simpa using har)]
      · rw [findReport, List.find?_cons_of_neg _ (by simpa using har)]
        rw [findReport, List.find?_cons_of_neg _ (by simpa using har)]
        exact ih

/-- C5: report look-up.  `/recovery_status` never modifies the state; the
shared look-up (`next((r for r in reports if r[\"id\"] == report_id), None)`)
succeeds iff a report with the id exists and returns the first such report
in list order; when none exists the status query replies
"Reporte no encontrado." and the recovery callback leaves the state
untouched as well. -/
theorem report_lookup (s : BotState) (rid : String) :
    (recovery_status s rid).2 = s ∧
    ((findReport s.reports rid).isSome ↔ ∃ r ∈ s.reports, r.id = rid) ∧
    (∀ pre r post, s.reports = pre ++ r :: post → r.id = rid →
      (∀ x ∈ pre, x.id ≠ rid) → findReport s.reports rid = some r) ∧
    (findReport s.reports rid = none →
      (recovery_status s rid).1 = "Reporte no encontrado.") ∧
    (findReport s.reports rid = none → ∀ data clicker env now action,
      parseCallbackData data = some (rid, action) →
      (recovery_callback_handler s data clicker env now).1 = s) := by
  refine ⟨?_, ?_, ?_, ?_, ?_⟩
  · cases hf : findReport s.reports rid <;> simp [recovery_status, hf]
  · rw [findReport, List.find?_isSome]
    constructor
    · rintro ⟨r, hr, he⟩
      exact ⟨r, hr, by simpa using he⟩
    · rintro ⟨r, hr, he⟩
      exact ⟨r, hr, by simpa using he⟩
  · intro pre r post hl hr hpre
    rw [hl]
    exact findReport_first pre post r rid hr hpre
  · intro h
    simp [recovery_status, h]
  · intro h data clicker env now action hparse
    rw [recovery_callback_handler, hparse]
    by_cases hg : cbGuardRejects env clicker
    · simp [hg]
    · simp [hg, h]

/-- Concrete instance of `report_lookup`: id `"zzzz"` is absent from
`demoState`, the query answers "Reporte no encontrado." and the callback
leaves the state unchanged. -/
theorem report_lookup_witness :
    (recovery_status demoState "zzzz").1 = "Reporte no encontrado." ∧
    (recovery_callback_handler demoState "recovery:zzzz:approve" 9 "" "T1").1 =
      demoState :=
  ⟨(report_lookup demoState "zzzz").2.2.2.1 (by rfl),
   (report_lookup demoState "zzzz").2.2.2.2 (by rfl)
     "recovery:zzzz:approve" 9 "" "T1" "approve" (by rfl)⟩

/-- C2 fails as stated: `_create_report` derives the id from
`uuid.uuid4().hex[:8]` and appends the report without comparing the id
against existing reports, so a colliding generated id produces duplicate
ids — here creating a report while id `"aaaa"` already exists. -/
theorem report_id_unique_counterexample :
    ¬ (((_create_report demoState demoUser "https://t.me/y" "aaaa" "T1").2).reports.map
        Report.id).Nodup := by decide

/-- C2, amended: ids stay pairwise distinct provided the freshly generated
id differs from every existing report id (the code itself contains no
uniqueness check); the created report carries the generated id. -/
theorem report_id_unique_of_fresh (s : BotState) (user : TgUser)
    (url rid now : String) (hfresh : rid ∉ s.reports.map Report.id)
    (hnd : (s.reports.map Report.id).Nodup) :
    (((_create_report s user url rid now).2).reports.map Report.id).Nodup ∧
    ((_create_report s user url rid now).1).id = rid := by
  refine ⟨?_, rfl⟩
  show ((s.reports ++ [(_create_report s user url rid now).1]).map Report.id).Nodup
  rw [List.map_append]
  simp only [List.nodup_append, List.map_cons, List.map_nil]
  refine ⟨hnd, by simp, ?_⟩
  intro x hx
  simp only [List.mem_singleton]
  intro he
  exact hfresh (by simpa [he] using hx)

/-- Concrete instance of `report_id_unique_of_fresh` with the fresh id
`"bbbb"` against `demoState`. -/
theorem report_id_unique_of_fresh_witness :
    (((_create_report demoState demoUser "https://t.me/y" "bbbb" "T1").2).reports.map
      Report.id).Nodup ∧
    ((_create_report demoState demoUser "https://t.me/y" "bbbb" "T1").1).id =
      "bbbb" :=
  report_id_unique_of_fresh demoState demoUser "https://t.me/y" "bbbb" "T1"
    (by decide) (by decide)


/-- Resolution never touches the report id. -/
theorem resolveReport_id (action : String) (clicker : Int) (now : String)
    (r : Report) : (resolveReport action clicker now r).id = r.id := rfl

/-- Once the first report with a given id is no longer pending, no
recovery callback (whatever its data, clicker, admin configuration or
time) changes what the look-up returns for that id. -/
theorem handler_preserves_found (s : BotState) (data : String) (clicker : Int)
    (env now rid : String) (r : Report)
    (hfind : findReport s.reports rid = some r) (hst : r.status ≠ "pending") :
    findReport ((recovery_callback_handler s data clicker env now).1).reports
      rid = some r := by
  rw [recovery_callback_handler]
  cases hp : parseCallbackData data with
  | none => exact hfind
  | some pa =>
    obtain ⟨rid2, action⟩ := pa
    by_cases hg : cbGuardRejects env clicker
    · simp only [hg, if_true]
      exact hfind
    · simp only [hg, if_false, Bool.false_eq_true]
      cases hf2 : findReport s.reports rid2 with
      | none => exact hfind
      | some r2 =>
        by_cases hs2 : r2.status = "pending"
        · have hbne : (r2.status != "pending") = false := by simp [hs2]
          simp only [hbne, if_false, Bool.false_eq_true]
          by_cases heq : rid2 = rid
          · subst heq
            rw [hfind] at hf2
            obtain rfl : r = r2 := by simpa using hf2
            exact absurd hs2 hst
          · show findReport (updateFirstReport s.reports rid2 _) rid = some r
            rw [findReport_updateFirst_ne s.reports rid rid2 _
              (fun e => heq e.symm) (resolveReport_id action clicker now)]
            exact hfind
        · have hbne : (r2.status != "pending") = true := by simp [hs2]
          simp only [hbne, if_true]
          exact hfind

/-- C1, amended: for every state and recovery callback, if the targeted
report (the first one with the id from the callback data) is not pending
the handler leaves the entire state unchanged; if it is pending *and the
callback passes the admin authorization guard*, the handler sets the
status to "provided" when the action is "approve" and to "denied"
otherwise, and no later callback changes that report again. -/
theorem status_transition (s : BotState) (data : String) (clicker : Int)
    (env now rid action : String)
    (hparse : parseCallbackData data = some (rid, action)) :
    (∀ r, findReport s.reports rid = some r → r.status ≠ "pending" →
      (recovery_callback_handler s data clicker env now).1 = s) ∧
    (cbGuardRejects env clicker = false →
      ∀ r, findReport s.reports rid = some r → r.status = "pending" →
        (findReport ((recovery_callback_handler s data clicker env now).1).reports
            rid).map Report.status =
          some (if action == "approve" then "provided" else "denied") ∧
        (recovery_callback_handler s data clicker env now).2 =
          CbOutcome.resolved rid action ∧
        ∀ data2 clicker2 env2 now2,
          findReport ((recovery_callback_handler
              ((recovery_callback_handler s data clicker env now).1)
              data2 clicker2 env2 now2).1).reports rid =
            findReport
              ((recovery_callback_handler s data clicker env now).1).reports
              rid) := by
  constructor
  · intro r hfind hst
    rw [recovery_callback_handler, hparse]
    by_cases hg : cbGuardRejects env clicker
    · simp only [hg, if_true]
    · simp only [hg, if_false, Bool.false_eq_true]
      rw [hfind]
      have hbne : (r.status != "pending") = true := by simp [hst]
      simp only [hbne, if_true]
  · intro hg r hfind hpend
    have hbne : (r.status != "pending") = false := by simp [hpend]
    have hrun : recovery_callback_handler s data clicker env now =
        ({ s with reports := (updateFirstReport s.reports rid
            (resolveReport action clicker now)) },
          CbOutcome.resolved rid action) := by
      rw [recovery_callback_handler, hparse]
      simp only [hg, if_false, Bool.false_eq_true]
      rw [hfind]
      simp only [hbne, if_false, Bool.false_eq_true]
    obtain ⟨pre, post, hsplit, hpre, hid⟩ := findReport_decomp s.reports rid r hfind
    have hupd : updateFirstReport s.reports rid (resolveReport action clicker now) =
        pre ++ resolveReport action clicker now r :: post := by
      rw [hsplit]
      exact updateFirstReport_decomp pre post r rid _ hid hpre
    have hfind2 : findReport ((recovery_callback_handler s data clicker env
        now).1).reports rid = some (resolveReport action clicker now r) := by
      rw [hrun]
      show findReport (updateFirstReport s.reports rid
        (resolveReport action clicker now)) rid = _
      rw [hupd]
      exact findReport_first pre post _ rid (by rw [resolveReport_id, hid]) hpre
    refine ⟨?_, ?_, ?_⟩
    · rw [hfind2]
      rfl
    · rw [hrun]
    · intro data2 clicker2 env2 now2
      rw [hfind2]
      exact handler_preserves_found _ data2 clicker2 env2 now2 rid _ hfind2
        (by by_cases ha : action == "approve" <;>
          simp [resolveReport, ha])

/-- C10: resolution frame condition.  When a recovery callback resolves a
report, the state differs only in that report, and the report differs only
in `status`, `response_by` (the clicker) and `response_at` (the time):
`id`, `user_id`, `user_name`, `channel_url` and `created_at` are
unchanged, every other report is untouched, and `moderated_chats` and
`histories` are untouched. -/
theorem resolution_frame (s : BotState) (data : String) (clicker : Int)
    (env now : String) (s2 : BotState) (rid action : String)
    (hrun : recovery_callback_handler s data clicker env now =
      (s2, CbOutcome.resolved rid action)) :
    ∃ pre r post, s.reports = pre ++ r :: post ∧ (∀ x ∈ pre, x.id ≠ rid) ∧
      r.id = rid ∧ r.status = "pending" ∧
      s2.reports = pre ++ resolveReport action clicker now r :: post ∧
      (resolveReport action clicker now r).id = r.id ∧
      (resolveReport action clicker now r).user_id = r.user_id ∧
      (resolveReport action clicker now r).user_name = r.user_name ∧
      (resolveReport action clicker now r).channel_url = r.channel_url ∧
      (resolveReport action clicker now r).created_at = r.created_at ∧
      (resolveReport action clicker now r).response_by = some clicker ∧
      (resolveReport action clicker now r).response_at = some (now ++ "Z") ∧
      s2.moderated_chats = s.moderated_chats ∧
      s2.histories = s.histories := by
  rw [recovery_callback_handler] at hrun
  cases hp : parseCallbackData data with
  | none =>
    rw [hp] at hrun
    simp at hrun
  | some pa =>
    obtain ⟨rid2, action2⟩ := pa
    rw [hp] at hrun
    by_cases hg : cbGuardRejects env clicker
    · simp only [hg, if_true] at hrun
      simp at hrun
    · simp only [hg, if_false, Bool.false_eq_true] at hrun
      cases hf : findReport s.reports rid2 with
      | none =>
        rw [hf] at hrun
        simp at hrun
      | some r =>
        rw [hf] at hrun
        by_cases hpend : r.status = "pending"
        · have hbne : (r.status != "pending") = false := by simp [hpend]
          simp only [hbne, if_false, Bool.false_eq_true] at hrun
          rw [Prod.mk.injEq] at hrun
          obtain ⟨hs2, hout⟩ := hrun
          injection hout with h1 h2
          subst h1
          subst h2
          obtain ⟨pre, post, hsplit, hpre, hid⟩ :=
            findReport_decomp s.reports rid2 r hf
          refine ⟨pre, r, post, hsplit, hpre, hid, hpend, ?_, rfl, rfl, rfl,
            rfl, rfl, rfl, rfl, ?_, ?_⟩
          · rw [← hs2]
            show updateFirstReport s.reports rid2
                (resolveReport action2 clicker now) =
              pre ++ resolveReport action2 clicker now r :: post
            rw [hsplit]
            exact updateFirstReport_decomp pre post r rid2 _ hid hpre
          · rw [← hs2]
          · rw [← hs2]
        · have hbne : (r.status != "pending") = true := by simp [hpend]
          simp only [hbne, if_true] at hrun
          simp at hrun

/-- When no token of `RECOVERY_ADMIN_IDS` parses as an int, the
accumulating fold of `_admin_ids_set` returns its accumulator. -/
theorem adminFold_const (l : List String) (acc : List Int)
    (h : ∀ t ∈ l, pyIntOfString (pyStrip t) = none) :
    l.foldl
      (fun acc p =>
        let p := pyStrip p
        if p = "" then acc
        else
          match pyIntOfString p with
          | none => acc
          | some n => if acc.contains n then acc else acc ++ [n])
      acc = acc := by
  induction l generalizing acc with
  | nil => rfl
  | cons t tl ih =>
    rw [List.foldl_cons]
    have hstep : (let q := pyStrip t
        if q = "" then acc
        else
          match pyIntOfString q with
          | none => acc
          | some n => if acc.contains n then acc else acc ++ [n]) = acc := by
      show (if pyStrip t = "" then acc
        else
          match pyIntOfString (pyStrip t) with
          | none => acc
          | some n => if acc.contains n then acc else acc ++ [n]) = acc
      by_cases he : pyStrip t = ""
      · rw [if_pos he]
      · rw [if_neg he, h t (by simp)]
    rw [show (let p := pyStrip t
        if p = "" then acc
        else
          match pyIntOfString p with
          | none => acc
          | some n => if acc.contains n then acc else acc ++ [n]) = acc from hstep]
    exact ih _ (fun x hx => h x (by simp [hx]))

/-- C9: when the configured admin-id list parses to the empty set (unset,
empty, or only blank/non-integer tokens — all silently skipped), the
authorization guard of the recovery callback is bypassed entirely and the
handler never answers "unauthorized"; the guard rejects a clicker exactly
when the parsed set is non-empty and does not contain the clicker. -/
theorem admin_guard_bypass (env : String) (clicker : Int) :
    ((∀ t ∈ pySplit env ',', pyIntOfString (pyStrip t) = none) →
      _admin_ids_set env = []) ∧
    (_admin_ids_set env = [] →
      cbGuardRejects env clicker = false ∧
      ∀ s data now, (recovery_callback_handler s data clicker env now).2 ≠
        CbOutcome.unauthorized) ∧
    (cbGuardRejects env clicker = true ↔
      _admin_ids_set env ≠ [] ∧ clicker ∉ _admin_ids_set env) ∧
    (∀ s data now, (recovery_callback_handler s data clicker env now).2 =
        CbOutcome.unauthorized →
      _admin_ids_set env ≠ [] ∧ clicker ∉ _admin_ids_set env) := by
  have hiff : cbGuardRejects env clicker = true ↔
      _admin_ids_set env ≠ [] ∧ clicker ∉ _admin_ids_set env := by
    simp [cbGuardRejects, List.isEmpty_iff]
  have hguard : ∀ s data now,
      (recovery_callback_handler s data clicker env now).2 =
        CbOutcome.unauthorized → cbGuardRejects env clicker = true := by
    intro s data now h
    rw [recovery_callback_handler] at h
    cases hp : parseCallbackData data with
    | none =>
      rw [hp] at h
      exact absurd h (by simp)
    | some pa =>
      obtain ⟨rid2, action2⟩ := pa
      rw [hp] at h
      by_cases hg : cbGuardRejects env clicker
      · exact hg
      · simp only [hg, if_false, Bool.false_eq_true] at h
        cases hf : findReport s.reports rid2 with
        | none =>
          rw [hf] at h
          exact absurd h (by simp)
        | some r =>
          rw [hf] at h
          by_cases hpend : (r.status != "pending") = true
          · simp only [hpend, if_true] at h
            exact absurd h (by simp)
          · simp only [hpend, if_false, Bool.false_eq_true] at h
            exact absurd h (by simp)
  refine ⟨?_, ?_, hiff, ?_⟩
  · intro h
    exact adminFold_const (pySplit env ',') [] h
  · intro h
    have hgf : cbGuardRejects env clicker = false := by
      simp [cbGuardRejects, h]
    refine ⟨hgf, ?_⟩
    intro s data now hu
    have := hguard s data now hu
    rw [hgf] at this
    exact Bool.false_ne_true this
  · intro s data now hu
    exact hiff.mp (hguard s data now hu)

/-- `x or y` never yields `None` when the fallback is not `None`
(a truthy value is in particular not `None`). -/
theorem pyOr_ne_null (x : Option Json) (y : Json) (hy : y ≠ Json.null) :
    pyOr x y ≠ Json.null := by
  cases x with
  | none => exact hy
  | some v =>
    show (if jsonTruthy v then v else y) ≠ Json.null
    by_cases hv : jsonTruthy v
    · rw [if_pos hv]
      intro he
      subst he
      simp [jsonTruthy] at hv
    · rw [if_neg hv]
      exact hy

/-- Evaluation of `hf_generate_text` once the API key check has passed,
by response shape. -/
theorem hf_run (k : String) (hk : k ≠ "") (respText : String) (d : Json) :
    hf_generate_text (some k) respText (some d) =
      (match d with
      | .obj m =>
        if pyTruthyOptJson (jsonGet m "error") then
          .error ("Hugging Face error: " ++ pyStrOptJson (jsonGet m "error"))
        else .ok (pyOr (jsonGet m "generated_text")
          (pyOr (jsonGet m "text") (.str (pyStr d))))
      | .arr (first :: _) =>
        (match first with
        | .obj fm => .ok (pyOr (jsonGet fm "generated_text") (.str ""))
        | _ => .ok (.str (pyStr d)))
      | _ => .ok (.str (pyStr d))) := by
  simp only [hf_generate_text]
  rw [if_neg (by simpa using hk)]

/-- An unset `HUGGINGFACE_API_KEY` raises before any network handling. -/
theorem hf_key_missing (respText : String) (decoded : Option Json) :
    hf_generate_text none respText decoded =
      Except.error "HUGGINGFACE_API_KEY no está configurado en .env" := rfl

/-- An empty `HUGGINGFACE_API_KEY` is falsy and raises as well. -/
theorem hf_key_empty (respText : String) (decoded : Option Json) :
    hf_generate_text (some "") respText decoded =
      Except.error "HUGGINGFACE_API_KEY no está configurado en .env" := rfl

/-- A non-JSON response body raises, quoting the first 400 characters. -/
theorem hf_non_json (k : String) (hk : k ≠ "") (respText : String) :
    hf_generate_text (some k) respText none =
      Except.error ("Hugging Face returned non-JSON response: " ++
        respText.take 400) := by
  simp only [hf_generate_text]
  rw [if_neg (by simpa using hk)]

/-- C6, amended: `hf_generate_text` fails exactly when the API key is
unset or empty, the body is not JSON, or the decoded JSON is a dict whose
"error" field is *truthy*; it never returns `None`; for a list response
whose first element is a dict it returns that element's `generated_text`
(or `""` when absent or falsy), and for a dict response without truthy
error it returns `generated_text` or `text` or the stringified dict. -/
theorem hf_generate_text_spec (apiKey : Option String) (respText : String)
    (decoded : Option Json) :
    ((∃ e, hf_generate_text apiKey respText decoded = Except.error e) ↔
      (apiKey = none ∨ apiKey = some "" ∨ decoded = none ∨
        ∃ m, decoded = some (Json.obj m) ∧
          pyTruthyOptJson (jsonGet m "error") = true)) ∧
    (∀ v, hf_generate_text apiKey respText decoded = Except.ok v →
      v ≠ Json.null) ∧
    (apiKey ≠ none → apiKey ≠ some "" → ∀ fm rest,
      decoded = some (Json.arr (Json.obj fm :: rest)) →
      hf_generate_text apiKey respText decoded =
        Except.ok (pyOr (jsonGet fm "generated_text") (Json.str ""))) ∧
    (apiKey ≠ none → apiKey ≠ some "" → ∀ m,
      decoded = some (Json.obj m) →
      pyTruthyOptJson (jsonGet m "error") = false →
      hf_generate_text apiKey respText decoded =
        Except.ok (pyOr (jsonGet m "generated_text")
          (pyOr (jsonGet m "text") (Json.str (pyStr (Json.obj m)))))) := by
  refine ⟨?_, ?_, ?_, ?_⟩
  · constructor
    · rintro ⟨e, he⟩
      cases apiKey with
      | none => exact Or.inl rfl
      | some k =>
        by_cases hk : k = ""
        · exact Or.inr (Or.inl (by rw [hk]))
        · cases decoded with
          | none => exact Or.inr (Or.inr (Or.inl rfl))
          | some d =>
            cases d with
            | obj m =>
              by_cases herr : pyTruthyOptJson (jsonGet m "error") = true
              · exact Or.inr (Or.inr (Or.inr ⟨m, rfl, herr⟩))
              · simp only [hf_run k hk] at he
                rw [if_neg herr] at he
                exact Except.noConfusion he
            | arr l =>
              cases l with
              | nil =>
                simp only [hf_run k hk] at he
                exact Except.noConfusion he
              | cons first rest =>
                cases first with
                | obj fm =>
                  simp only [hf_run k hk] at he
                  exact Except.noConfusion he
                | null =>
                  simp only [hf_run k hk] at he
                  exact Except.noConfusion he
                | bool b =>
                  simp only [hf_run k hk] at he
                  exact Except.noConfusion he
                | int n =>
                  simp only [hf_run k hk] at he
                  exact Except.noConfusion he
                | str t =>
                  simp only [hf_run k hk] at he
                  exact Except.noConfusion he
                | arr l2 =>
                  simp only [hf_run k hk] at he
                  exact Except.noConfusion he
            | null =>
              simp only [hf_run k hk] at he
              exact Except.noConfusion he
            | bool b =>
              simp only [hf_run k hk] at he
              exact Except.noConfusion he
            | int n =>
              simp only [hf_run k hk] at he
              exact Except.noConfusion he
            | str t =>
              simp only [hf_run k hk] at he
              exact Except.noConfusion he
    · intro hr
      rcases hr with h | h | h | ⟨m, hdec, herr⟩
      · subst h
        exact ⟨_, hf_key_missing respText decoded⟩
      · subst h
        exact ⟨_, hf_key_empty respText decoded⟩
      · subst h
        cases apiKey with
        | none => exact ⟨_, hf_key_missing respText none⟩
        | some k =>
          by_cases hk : k = ""
          · subst hk
            exact ⟨_, hf_key_empty respText none⟩
          · exact ⟨_, hf_non_json k hk respText⟩
      · subst hdec
        cases apiKey with
        | none => exact ⟨_, hf_key_missing respText _⟩
        | some k =>
          by_cases hk : k = ""
          · subst hk
            exact ⟨_, hf_key_empty respText _⟩
          · refine ⟨"Hugging Face error: " ++ pyStrOptJson (jsonGet m "error"), ?_⟩
            rw [hf_run k hk]
            show (if pyTruthyOptJson (jsonGet m "error") then _ else _) = _
            rw [if_pos herr]
  · intro v h
    cases apiKey with
    | none =>
      rw [hf_key_missing] at h
      exact Except.noConfusion h
    | some k =>
      by_cases hk : k = ""
      · subst hk
        rw [hf_key_empty] at h
        exact Except.noConfusion h
      · cases decoded with
        | none =>
          rw [hf_non_json k hk] at h
          exact Except.noConfusion h
        | some d =>
          cases d with
          | obj m =>
            simp only [hf_run k hk] at h
            by_cases herr : pyTruthyOptJson (jsonGet m "error") = true
            · rw [if_pos herr] at h
              exact Except.noConfusion h
            · rw [if_neg herr] at h
              injection h with h2
              subst h2
              exact pyOr_ne_null _ _
                (pyOr_ne_null _ _ (fun he => Json.noConfusion he))
          | arr l =>
            cases l with
            | nil =>
              simp only [hf_run k hk] at h
              injection h with h2
              subst h2
              exact fun he => Json.noConfusion he
            | cons first rest =>
              cases first with
              | obj fm =>
                simp only [hf_run k hk] at h
                injection h with h2
                subst h2
                exact pyOr_ne_null _ _ (fun he => Json.noConfusion he)
              | null =>
                simp only [hf_run k hk] at h
                injection h with h2
                subst h2
                exact fun he => Json.noConfusion he
              | bool b =>
                simp only [hf_run k hk] at h
                injection h with h2
                subst h2
                exact fun he => Json.noConfusion he
              | int n =>
                simp only [hf_run k hk] at h
                injection h with h2
                subst h2
                exact fun he => Json.noConfusion he
              | str t =>
                simp only [hf_run k hk] at h
                injection h with h2
                subst h2
                exact fun he => Json.noConfusion he
              | arr l2 =>
                simp only [hf_run k hk] at h
                injection h with h2
                subst h2
                exact fun he => Json.noConfusion he
          | null =>
            simp only [hf_run k hk] at h
            injection h with h2
            subst h2
            exact fun he => Json.noConfusion he
          | bool b =>
            simp only [hf_run k hk] at h
            injection h with h2
            subst h2
            exact fun he => Json.noConfusion he
          | int n =>
            simp only [hf_run k hk] at h
            injection h with h2
            subst h2
            exact fun he => Json.noConfusion he
          | str t =>
            simp only [hf_run k hk] at h
            injection h with h2
            subst h2
            exact fun he => Json.noConfusion he
  · intro hk1 hk2 fm rest hdec
    subst hdec
    cases apiKey with
    | none => exact absurd rfl hk1
    | some k =>
      have hk : k ≠ "" := fun he => hk2 (by rw [he])
      rw [hf_run k hk]
  · intro hk1 hk2 m hdec herr
    subst hdec
    cases apiKey with
    | none => exact absurd rfl hk1
    | some k =>
      have hk : k ≠ "" := fun he => hk2 (by rw [he])
      rw [hf_run k hk]
      show (if pyTruthyOptJson (jsonGet m "error") then _ else _) = _
      rw [if_neg (by rw [herr]; exact fun he => Bool.noConfusion he)]

/-- C1 fails as stated: an unauthorized click (admin set `{5}`, clicker 6)
on a *pending* report with action `"approve"` leaves the report pending
instead of setting it to "provided" — the status-transition description
omits the authorization guard. -/
theorem status_transition_counterexample :
    parseCallbackData "recovery:aaaa:approve" = some ("aaaa", "approve") ∧
    (findReport demoState.reports "aaaa").map Report.status = some "pending" ∧
    (recovery_callback_handler demoState "recovery:aaaa:approve" 6 "5" "T1").1 =
      demoState ∧
    (findReport ((recovery_callback_handler demoState "recovery:aaaa:approve" 6
        "5" "T1").1).reports "aaaa").map Report.status ≠ some "provided" := by
  decide

/-- Concrete instance of `status_transition`: an authorized approve click
(no admin restriction) marks the pending report "provided". -/
theorem status_transition_witness :
    (findReport ((recovery_callback_handler demoState "recovery:aaaa:approve" 9
        "" "T1").1).reports "aaaa").map Report.status =
      some (if ("approve" == "approve") then "provided" else "denied") ∧
    (recovery_callback_handler demoState "recovery:aaaa:approve" 9 "" "T1").2 =
      CbOutcome.resolved "aaaa" "approve" :=
  ⟨((status_transition demoState "recovery:aaaa:approve" 9 "" "T1" "aaaa"
      "approve" rfl).2 rfl demoReport rfl rfl).1,
   ((status_transition demoState "recovery:aaaa:approve" 9 "" "T1" "aaaa"
      "approve" rfl).2 rfl demoReport rfl rfl).2.1⟩

/-- Concrete instance of `resolution_frame`: admin 5 denies the pending
report of `demoState`. -/
theorem resolution_frame_witness :
    ∃ pre r post, demoState.reports = pre ++ r :: post ∧
      (∀ x ∈ pre, x.id ≠ "aaaa") ∧ r.id = "aaaa" ∧ r.status = "pending" ∧
      ((recovery_callback_handler demoState "recovery:aaaa:deny" 5 "5"
        "T1").1).reports = pre ++ resolveReport "deny" 5 "T1" r :: post ∧
      (resolveReport "deny" 5 "T1" r).id = r.id ∧
      (resolveReport "deny" 5 "T1" r).user_id = r.user_id ∧
      (resolveReport "deny" 5 "T1" r).user_name = r.user_name ∧
      (resolveReport "deny" 5 "T1" r).channel_url = r.channel_url ∧
      (resolveReport "deny" 5 "T1" r).created_at = r.created_at ∧
      (resolveReport "deny" 5 "T1" r).response_by = some 5 ∧
      (resolveReport "deny" 5 "T1" r).response_at = some ("T1" ++ "Z") ∧
      ((recovery_callback_handler demoState "recovery:aaaa:deny" 5 "5"
        "T1").1).moderated_chats = demoState.moderated_chats ∧
      ((recovery_callback_handler demoState "recovery:aaaa:deny" 5 "5"
        "T1").1).histories = demoState.histories :=
  resolution_frame demoState "recovery:aaaa:deny" 5 "5" "T1"
    (recovery_callback_handler demoState "recovery:aaaa:deny" 5 "5" "T1").1
    "aaaa" "deny" rfl

/-- Concrete instance of `admin_guard_bypass`: `RECOVERY_ADMIN_IDS`
`"abc, ,"` parses to the empty set, so clicker 6 is never rejected; with
`"5"` the guard-rejection criterion is the stated one. -/
theorem admin_guard_bypass_witness :
    _admin_ids_set "abc, ," = [] ∧
    cbGuardRejects "abc, ," 6 = false ∧
    (recovery_callback_handler demoState "recovery:aaaa:approve" 6 "abc, ,"
      "T1").2 ≠ CbOutcome.unauthorized ∧
    (cbGuardRejects "5" 6 = true ↔
      _admin_ids_set "5" ≠ [] ∧ 6 ∉ _admin_ids_set "5") :=
  ⟨(admin_guard_bypass "abc, ," 6).1 (by decide),
   ((admin_guard_bypass "abc, ," 6).2.1 (by decide)).1,
   ((admin_guard_bypass "abc, ," 6).2.1 (by decide)).2 demoState
     "recovery:aaaa:approve" "T1",
   (admin_guard_bypass "5" 6).2.2.1⟩

/-- C6 fails as stated: a dict response *carrying* an `"error"` field does
not raise when the field is falsy — `{"error": ""}` makes the function
return the stringified dict instead of raising. -/
theorem hf_error_field_counterexample :
    hf_generate_text (some "k") "x" (some (Json.obj [("error", Json.str "")])) =
      Except.ok (Json.str "\x7b\x27error\x27: \x27\x27\x7d") ∧
    ∀ e, hf_generate_text (some "k") "x"
        (some (Json.obj [("error", Json.str "")])) ≠ Except.error e :=
  ⟨rfl, fun _ he => Except.noConfusion he⟩

/-- Concrete instance of `hf_generate_text_spec`: the common response
`[{"generated_text": "hi"}]` yields the generated text. -/
theorem hf_generate_text_spec_witness :
    hf_generate_text (some "k") "x"
        (some (Json.arr [Json.obj [("generated_text", Json.str "hi")]])) =
      Except.ok (pyOr (jsonGet [("generated_text", Json.str "hi")]
        "generated_text") (Json.str "")) :=
  (hf_generate_text_spec (some "k") "x"
      (some (Json.arr [Json.obj [("generated_text", Json.str "hi")]]))).2.2.1
    (by decide) (by decide) [("generated_text", Json.str "hi")] [] rfl

end Bot
